import Mathlib

/-!
# A verification model of the `@ganbarodigital/well-stated` mutation pipeline

This file gives a shallow embedding, in Lean 4, of the core of the
`ts-well-stated` state store:

* the topic registries (`StoreExtensions` from
  `src/v1/StoreExtensions/StoreExtensions.ts`, and `InterestsRegistry` from
  the file defining `InterestsRegistry`), which map topic names (mutation
  class names) to ordered lists of registered entries;
* the dispatch loops `StoreExtensions.forEach` (which iterates a `.slice()`
  snapshot of each topic's list) and `InterestsRegistry.forEach` (which
  iterates the live array);
* the mutation pipeline `Store.apply` from `src/v1/Store/Store.ts`, with its
  observer / guard / handler / subscriber stages, unhandled-mutation
  detection (`MutationHandlers.forEach`), rollback and outcome notification
  (`StoreObservers.forEach`).

Modelling conventions:

* JavaScript objects are modelled by values; aliasing is modelled by how the
  embedding threads a callback's write-effect.  A callback that receives a
  reference to an object is modelled as a function returning the object's
  value after its writes; the embedding feeds that value back exactly where
  the source lets the reference flow (e.g. writes through the live state
  reach `store.state`; writes through a `copy()` are kept only where the
  copy itself is kept).  `copy()` (the `copy-anything` deep clone) is the
  identity on values; what matters is which object each party holds.
* Exceptions are modelled with `Except`: `.error` is a throw, and a thrown
  error aborts the enclosing loop exactly as in the source.
* `HashMap<E[]>` (a plain JS object keyed by strings) is modelled as an
  association list `List (String × List E)`; key lookup takes the first
  matching pair.  Reading a missing key yields `none` (JS `undefined`).
* Re-entrant `Store.apply` calls from subscribers and the wall-clock
  timestamps (`DateTime.local()`) are not modelled; no property below
  depends on them.
-/

set_option autoImplicit false

namespace WellStated

/-- Failures of the JavaScript runtime itself, as opposed to errors thrown
on purpose by pipeline callbacks.  `typeError` models the `TypeError`
raised by calling a method on `undefined`. -/
inductive JsError : Type where
  | typeError
  deriving DecidableEq, Repr

/-- `Registry E` models the `HashMap<E[]>` held in
`StoreExtensions._extensions` and `InterestsRegistry._theList`: topic
names mapped to ordered lists of registered entries. -/
abbrev Registry (E : Type) : Type := List (String × List E)

variable {E : Type}

/-- `this._theList[topicName]` — JS property read; `none` is `undefined`. -/
def topicFind (r : Registry E) (t : String) : Option (List E) :=
  (r.find? (fun p => p.1 = t)).map Prod.snd

/-- `this._theList[name] ?? []` — the list registered for a topic, with the
nullish-coalescing default used by both `forEach` implementations. -/
def topicList (r : Registry E) (t : String) : List E :=
  (topicFind r t).getD []

/-- The effect of `push`ing entry `e` onto topic `t`'s list: the list held
under key `t` gains `e` at its end, all other keys are untouched. -/
def registerMap (r : Registry E) (t : String) (e : E) : Registry E :=
  r.map (fun p => (p.1, if p.1 = t then p.2 ++ [e] else p.2))

/-- `StoreExtensions._registerExtensionForMutation` /
`InterestsRegistry._registerInterestForTopic` (both have identical bodies):

```ts
this._theList[topicName].push(interest);
```

If the topic has no list yet, `this._theList[topicName]` is `undefined`
and `.push` raises a `TypeError`; otherwise the entry is appended to the
topic's list. -/
def registerForTopic (r : Registry E) (t : String) (e : E) :
    Except JsError (Registry E) :=
  match topicFind r t with
  | none => .error .typeError
  | some _ => .ok (registerMap r t e)

/-- The unsubscribe closure returned by `_registerInterestForTopic`:

```ts
const index = this._theList[topicName].indexOf(interest);
if (index > -1) { this._theList[topicName].splice(index, 1); }
```

`indexOf` uses reference equality (here: equality on `E`) and finds the
*first* occurrence; `splice` removes it.  If the entry is absent
(`index === -1`) nothing happens. -/
def unregisterForTopic [DecidableEq E] (r : Registry E) (t : String) (e : E) :
    Registry E :=
  r.map (fun p => (p.1, if p.1 = t then p.2.erase e else p.2))

/-- `StoreExtensions.add` / `InterestsRegistry.add`: register one entry
under each of the given topics, in order.  A `TypeError` from
`_registerInterestForTopic` escapes the `topics.forEach` loop. -/
def add (r : Registry E) (e : E) : List String → Except JsError (Registry E)
  | [] => .ok r
  | t :: ts =>
    match registerForTopic r t e with
    | .error err => .error err
    | .ok r' => add r' e ts

/-- The combined unsubscriber returned by `add`:

```ts
return () => { unsubs.forEach((unsub) => unsub()); }
```

i.e. the per-topic unsubscribe closures run in registration order. -/
def unsubscribeAll [DecidableEq E] (r : Registry E) (e : E) :
    List String → Registry E
  | [] => r
  | t :: ts => unsubscribeAll (unregisterForTopic r t e) e ts

/-- The sequence of entries a dispatch pass visits when no callback mutates
the registry: for each topic in order (the source iterates
`getClassNames(mutation)`), the topic's entries in insertion order.  This
is `StoreExtensions.forEach` / `InterestsRegistry.forEach` specialised to
registry-preserving callbacks; the registry-mutating loops are
`forEachSnapshot` and `forEachLive` below. -/
def matching (r : Registry E) : List String → List E
  | [] => []
  | t :: ts => topicList r t ++ matching r ts

/-- One topic's pass of `StoreExtensions.forEach`: the `.slice()` snapshot
`snap` was taken before the loop started, so the callback's registry
mutations (`acc`) never change which entries the pass visits.  Also
records the visited entries, in order. -/
def snapshotRun (f : E → Registry E → Registry E) :
    List E → Registry E × List E → Registry E × List E
  | [], acc => acc
  | e :: es, (r, tr) => snapshotRun f es (f e r, tr ++ [e])

/-- `StoreExtensions.forEach`:

```ts
mutationNames.forEach((name) => {
  const extensions = (this._extensions[name] ?? []).slice();
  extensions.forEach((extension) => { extensionCalled = true; fn(extension); });
});
```

The callback here is registry-mutating (`E → Registry E → Registry E`,
e.g. an entry unsubscribing another entry); the snapshot for each topic is
taken from the registry as it stands when that topic's pass starts.
Returns the final registry and the entries invoked, in order. -/
def forEachSnapshot (f : E → Registry E → Registry E) :
    List String → Registry E × List E → Registry E × List E
  | [], acc => acc
  | t :: ts, (r, tr) => forEachSnapshot f ts (snapshotRun f (topicList r t) (r, tr))

/-- One topic's pass of `InterestsRegistry.forEach`, which iterates the
*live* array (`const interests = this._theList[name] ?? []` — no
`.slice()`).  JavaScript's `Array.prototype.forEach` fixes the iteration
bound `len0` at the array's initial length, but reads the element at each
index from the current array; an index past the current length is
skipped.  So entries removed (`splice`d) by an earlier callback shift
down and can be skipped within the same pass. -/
def liveRun (f : E → Registry E → Registry E) (t : String) :
    Nat → Nat → Registry E × List E → Registry E × List E
  | _, 0, acc => acc
  | k, n + 1, (r, tr) =>
    match (topicList r t).get? k with
    | none => liveRun f t (k + 1) n (r, tr)
    | some e => liveRun f t (k + 1) n (f e r, tr ++ [e])

/-- `InterestsRegistry.forEach`: per topic, iterate the live entry list as
described at `liveRun`, with the bound fixed at the list's length when the
topic's pass starts. -/
def forEachLive (f : E → Registry E → Registry E) :
    List String → Registry E × List E → Registry E × List E
  | [], acc => acc
  | t :: ts, (r, tr) => forEachLive f ts (liveRun f t 0 (topicList r t).length (r, tr))

/-! ## Concrete registries used in the C7 and C8 scenarios -/

/-- Two entries registered under topic `"T"`. -/
def c7Registry : Registry String := [("T", ["a", "b"])]

/-- The dispatch callback: when entry `"a"` is invoked, it calls the
unsubscribe handle of entry `"b"` (which splices `"b"` out of the live
list for `"T"`). -/
def c7Callback : String → Registry String → Registry String :=
  fun e r => if e = "a" then unregisterForTopic r "T" "b" else r

/-- The same entry (one function reference, `"f"`) registered twice under
topic `"T"` by two `add` calls. -/
def c8Registry : Registry String := [("T", ["f", "f"])]

/-! ## The Store pipeline (`src/v1/Store/Store.ts`)

The old-variant `Store` wires the registries together:

* `guards : StoreGuards` dispatches through `InterestsRegistry.forEach`;
* `handlers : MutationHandlers` and `subscribers : StoreSubscribers`
  dispatch through `StoreExtensions.forEach`;
* `observers : StoreObservers` dispatches through `StoreExtensions.forEach`
  and returns the outcome-updater closure.

The embedding below covers `apply` runs whose callbacks neither re-enter
the store nor mutate the registries mid-run; for such runs both dispatch
loops visit exactly the `matching` sequence.  Aliasing of the state object
is modelled by threading: a callback's `.ok v` result is the value of the
state object it was handed, after its writes, and `apply` feeds that value
onward exactly where the source lets the reference flow. -/

/-- Errors travelling through `apply`: a value thrown by a pipeline
callback (`user a` — JS lets callbacks throw anything), or the
`UnhandledMutationError` synthesised by `MutationHandlers.forEach` when no
handler fired.  The two are distinguishable, as in the source (distinct
classes). -/
inductive StoreError (A : Type) : Type where
  | user (a : A)
  | unhandledMutation
  deriving DecidableEq, Repr

/-- A guard / handler / subscriber callback: invoked with the mutation and
(a reference to) a state object; `.ok v` is the state object's value after
the callback's writes, `.error e` is a throw. -/
abbrev Callback (V M A : Type) : Type := M → V → Except (StoreError A) V

/-- An `OutcomeUpdater` collected from `beforeMutationApplied`.  It is
invoked with the outcome — `.error e` (the failure that aborted the
pipeline, passed uncopied) or `.ok v` (the shared deep copy of the final
state).  A result of `.error e2` means the updater threw `e2`; `.ok v2`
means it returned normally, `v2` being the shared copy's value after the
updater's writes (ignored by the store when the outcome was a failure). -/
abbrev Updater (V A : Type) : Type :=
  Except (StoreError A) V → Except (StoreError A) V

/-- A `StoreObserver` (old variant, `src/v1/StoreObserver/StoreObserver.ts`):
`beforeMutationApplied(event)` may write through `event.initialState` —
the shared pre-mutation snapshot object — and returns an updater.  The
first component of the result is the snapshot's value after the observer's
writes.  (`beforeMutationApplied` itself throwing is not modelled: the
interface documents observers as never throwing, and no claim involves
it.) -/
structure Observer (V M A : Type) : Type where
  beforeMutationApplied : M → V → V × Updater V A

/-- Trace of which pipeline stage invoked a callback, in invocation
order. -/
inductive Ev : Type where
  | observerBefore
  | guardCall
  | handlerCall
  | subscriberCall
  | observerOutcome
  deriving DecidableEq, Repr

variable {V M A : Type}

/-- `StoreObservers.forEach` (old variant), the collection pass: a single
`storeEvent` is built whose `initialState` field holds the snapshot
object, and each matching observer's `beforeMutationApplied` is invoked
on it in dispatch order, its updater pushed onto `updaterFns`.  All
observers share the one event object, so one observer's snapshot writes
are seen by the next; the final snapshot value is what `apply` later
assigns on rollback.  Returns (final snapshot value, collected updaters,
trace). -/
def collectObservers (m : M) :
    List (Observer V M A) → V → V × List (Updater V A) × List Ev
  | [], snap => (snap, [], [])
  | o :: os, snap =>
    let p := o.beforeMutationApplied m snap
    let r := collectObservers m os p.1
    (r.1, p.2 :: r.2.1, .observerBefore :: r.2.2)

/-- The common dispatch loop of `StoreGuards.forEach`,
`MutationHandlers.forEach` and `StoreSubscribers.forEach` over the
already-matched callbacks: each is invoked in order on the threaded state
object; a throw aborts the loop and propagates.  One trace event is
recorded per invocation (including for the callback that throws — it was
invoked). -/
def runCallbacks (ev : Ev) (m : M) :
    List (Callback V M A) → V → Except (StoreError A) V × List Ev
  | [], v => (.ok v, [])
  | c :: cs, v =>
    match c m v with
    | .error e => (.error e, [ev])
    | .ok v' =>
      let r := runCallbacks ev m cs v'
      (r.1, ev :: r.2)

/-- The `onUnhandledMutation` policy: it receives the synthesised
`UnhandledMutationError` and either throws (possibly something else) or
returns. -/
abbrev UnhandledPolicy (A : Type) : Type :=
  StoreError A → Except (StoreError A) Unit

/-- `THROW_THE_ERROR` (`@safelytyped/core-types`), the default policy for
both `onError` and `onUnhandledMutation`: raise what it is given. -/
def THROW_THE_ERROR {A : Type} : UnhandledPolicy A := fun e => .error e

/-- `MutationHandlers.forEach` (`StoreExtensions`-based variant): dispatch
the mutation to every matching handler; if no handler at all was invoked
(`handlerCalled` stayed `false`, i.e. the matched list is empty), build an
`UnhandledMutationError` and hand it to the policy, whose throw — the
default re-raises the error itself — propagates like a handler throw. -/
def handlersForEach (m : M) (hs : List (Callback V M A)) (v : V)
    (onUM : UnhandledPolicy A) : Except (StoreError A) V × List Ev :=
  match runCallbacks .handlerCall m hs v with
  | (.error e, tr) => (.error e, tr)
  | (.ok v', tr) =>
    if hs.isEmpty then
      match onUM .unhandledMutation with
      | .error e => (.error e, tr)
      | .ok _ => (.ok v', tr)
    else (.ok v', tr)

/-- The `try` block of `Store.apply` (lines 205–228): guards — which are
passed `this._state`, the live state object — then handlers, then
subscribers, threading the live state's value and aborting at the first
throw. -/
def tryStages (m : M) (gs hs ss : List (Callback V M A))
    (onUM : UnhandledPolicy A) (v : V) : Except (StoreError A) V × List Ev :=
  match runCallbacks .guardCall m gs v with
  | (.error e, tr1) => (.error e, tr1)
  | (.ok v1, tr1) =>
    match handlersForEach m hs v1 onUM with
    | (.error e, tr2) => (.error e, tr1 ++ tr2)
    | (.ok v2, tr2) =>
      let r := runCallbacks .subscriberCall m ss v2
      (r.1, tr1 ++ tr2 ++ r.2)

/-- The success branch of the closure returned by
`StoreObservers.forEach`: the outcome is not an `AppError`, so
`outcome = copy(outcome)` makes one isolated copy of the state, and every
collected updater is invoked on that same shared copy in collection order
(one updater's writes are seen by the next); a throwing updater aborts the
loop and its error propagates.  The copy is never written back to the
store. -/
def runUpdatersOk (us : List (Updater V A)) (v : V) :
    Except (StoreError A) V × List Ev :=
  match us with
  | [] => (.ok v, [])
  | u :: us' =>
    match u (.ok v) with
    | .error e => (.error e, [.observerOutcome])
    | .ok v' =>
      let r := runUpdatersOk us' v'
      (r.1, .observerOutcome :: r.2)

/-- The failure branch of the outcome closure: the thrown error is an
`AppError`, so it is passed uncopied to each collected updater in order; a
throwing updater aborts the loop and its own error propagates instead.
Returns `some e2` when some updater threw `e2`. -/
def runUpdatersErr (us : List (Updater V A)) (e : StoreError A) :
    Option (StoreError A) × List Ev :=
  match us with
  | [] => (none, [])
  | u :: us' =>
    match u (.error e) with
    | .error e2 => (some e2, [.observerOutcome])
    | .ok _ =>
      let r := runUpdatersErr us' e
      (r.1, .observerOutcome :: r.2)

/-- The old-variant `Store`: the four registries and the live state.
`classNames` stands for the external `getClassNames(mutation)` topic
derivation (the mutation's class name, its ancestor class names, then
`"Object"`). -/
structure Store (V M A : Type) : Type where
  classNames : M → List String
  guards : Registry (Callback V M A)
  handlers : Registry (Callback V M A)
  subscribers : Registry (Callback V M A)
  observers : Registry (Observer V M A)
  state : V

/-- What one `Store.apply` call produces: its result (`.ok ()` = returned
normally, `.error e` = the value thrown to the caller), the store's state
after the call, and the invocation trace. -/
structure ApplyResult (V A : Type) : Type where
  result : Except (StoreError A) Unit
  state : V
  trace : List Ev

/-- `Store.apply` (`src/v1/Store/Store.ts`, lines 185–248):

```ts
const initialState = copy(this._state);
const updateOutcome = this.observers.forEach(mutation, initialState);
try {
  this.guards.forEach(mutation, this._state, { onError });
  this.handlers.forEach(mutation, this._state, this, { onUnhandledMutation, onError });
  this.subscribers.forEach(mutation, this._state, this, { onError });
} catch (e) {
  this._state = initialState;
  updateOutcome(e, ...);
  throw e;
}
updateOutcome(this._state, ...);
```

Notes on the embedding:

* the rollback assigns the *snapshot object* to `this._state`; since the
  observers received that same object, any writes they made through
  `event.initialState` (`collectObservers`'s final snapshot value) come
  back with it;
* the guards receive `this._state` itself, so their writes thread straight
  into the value the handlers see and, on success, into the final state;
* if an updater throws inside the `catch` block, `throw e` is never
  reached and the updater's error is what escapes to the caller;
* if an updater throws on the success path, the error escapes after the
  handlers' writes were already committed — no rollback. -/
def Store.apply (st : Store V M A) (m : M) (onUM : UnhandledPolicy A) :
    ApplyResult V A :=
  let ns := st.classNames m
  let ob := collectObservers m (matching st.observers ns) st.state
  match tryStages m (matching st.guards ns) (matching st.handlers ns)
      (matching st.subscribers ns) onUM st.state with
  | (.error e, tr1) =>
    match runUpdatersErr ob.2.1 e with
    | (some e2, tr2) => ⟨.error e2, ob.1, ob.2.2 ++ tr1 ++ tr2⟩
    | (none, tr2) => ⟨.error e, ob.1, ob.2.2 ++ tr1 ++ tr2⟩
  | (.ok v, tr1) =>
    match runUpdatersOk ob.2.1 v with
    | (.error e2, tr2) => ⟨.error e2, v, ob.2.2 ++ tr1 ++ tr2⟩
    | (.ok _, tr2) => ⟨.ok (), v, ob.2.2 ++ tr1 ++ tr2⟩

/-! ## Concrete stores used in the C2, C5 and C3 scenarios -/

/-- A store with one guarantee that writes `42` through the state object it
is given, and one handler that writes nothing. -/
def c2Store : Store Nat Unit Unit where
  classNames := fun _ => ["T"]
  guards := [("T", [fun _ _ => .ok 42])]
  handlers := [("T", [fun _ v => .ok v])]
  subscribers := [("T", [])]
  observers := [("T", [])]
  state := 0

/-- A store whose observer writes `99` through the snapshot it is handed in
`beforeMutationApplied`, and whose only handler throws. -/
def c5Store : Store Nat Unit Unit where
  classNames := fun _ => ["T"]
  guards := [("T", [])]
  handlers := [("T", [fun _ _ => .error (.user ())])]
  subscribers := [("T", [])]
  observers := [("T", [⟨fun _ _ => (99, fun _ => .ok 0)⟩])]
  state := 0

/-- A store with no handler under the mutation's only topic, one
non-writing guard, one non-writing subscriber and one benign observer. -/
def c3Store : Store Nat Unit Unit where
  classNames := fun _ => ["T"]
  guards := [("T", [fun _ v => .ok v])]
  handlers := [("T", [])]
  subscribers := [("T", [fun _ v => .ok v])]
  observers := [("T", [⟨fun _ x => (x, fun _ => .ok 0)⟩])]
  state := 5

/-- **C6** — For every topic registry, `register(entry, topic)` is claimed to
succeed even when that topic currently has no entry list, creating the
list implicitly.  The registration code of both registry implementations
(`StoreExtensions._registerExtensionForMutation`,
`InterestsRegistry._registerInterestForTopic`) instead evaluates
`this._theList[topicName].push(...)`, which on a registry with no list
for the topic reads `undefined` and raises a `TypeError`: registration
fails outright and no list is created.  Evaluated here at the failing
input: a freshly constructed registry (empty `HashMap`, the constructors'
default) and topic `"MutationA"`. -/
theorem c6_register_missing_topic_raises :
    registerForTopic ([] : Registry String) "MutationA" "handler1"
      = .error .typeError
    ∧ add ([] : Registry String) "handler1" ["MutationA"] = .error .typeError := by
  constructor <;> rfl

/-! ## Registry lemmas -/

theorem topicFind_unregister [DecidableEq E] (r : Registry E) (t t' : String)
    (e : E) :
    topicFind (unregisterForTopic r t e) t'
      = (topicFind r t').map (fun l => if t' = t then l.erase e else l) := by
  induction r with
  | nil => rfl
  | cons p r ih =>
    by_cases h : p.1 = t'
    · simp [topicFind, unregisterForTopic, List.find?, h]
    · simpa [topicFind, unregisterForTopic, List.find?, h] using ih

theorem topicList_unregister [DecidableEq E] (r : Registry E) (t t' : String)
    (e : E) :
    topicList (unregisterForTopic r t e) t'
      = if t' = t then (topicList r t).erase e else topicList r t' := by
  unfold topicList
  rw [topicFind_unregister]
  by_cases h : t' = t
  · subst h
    cases hf : topicFind r t' <;> simp [hf]
  · cases hf : topicFind r t' <;> simp [hf, h]

theorem topicFind_registerMap (r : Registry E) (t t' : String) (e : E) :
    topicFind (registerMap r t e) t'
      = (topicFind r t').map (fun l => if t' = t then l ++ [e] else l) := by
  induction r with
  | nil => rfl
  | cons p r ih =>
    by_cases h : p.1 = t'
    · simp [topicFind, registerMap, List.find?, h]
    · simpa [topicFind, registerMap, List.find?, h] using ih

theorem topicList_registerMap_self (r : Registry E) (t : String) (e : E)
    (h : (topicFind r t).isSome) :
    topicList (registerMap r t e) t = topicList r t ++ [e] := by
  unfold topicList
  rw [topicFind_registerMap]
  cases hf : topicFind r t with
  | none => rw [hf] at h; simp at h
  | some l => simp

theorem topicList_registerMap_ne (r : Registry E) (t t' : String) (e : E)
    (h : t' ≠ t) :
    topicList (registerMap r t e) t' = topicList r t' := by
  unfold topicList
  rw [topicFind_registerMap]
  cases hf : topicFind r t' <;> simp [h]

theorem isSome_topicFind_registerMap (r : Registry E) (t t' : String) (e : E) :
    (topicFind (registerMap r t e) t').isSome = (topicFind r t').isSome := by
  rw [topicFind_registerMap]
  cases topicFind r t' <;> rfl

theorem mem_matching (r : Registry E) (ts : List String) (e : E) :
    e ∈ matching r ts ↔ ∃ t ∈ ts, e ∈ topicList r t := by
  induction ts with
  | nil => simp [matching]
  | cons t ts ih => simp [matching, ih]

theorem count_matching [DecidableEq E] (r : Registry E) (ts : List String)
    (e : E) :
    (matching r ts).count e = (ts.map (fun t => (topicList r t).count e)).sum := by
  induction ts with
  | nil => simp [matching]
  | cons t ts ih => simp [matching, List.count_append, ih]

/-! ## C7 — mid-iteration unregistration and dispatch snapshots

`StoreExtensions.forEach` slices each topic's list before iterating, but
`InterestsRegistry.forEach` — the dispatch loop behind the Store's guards
(`StoreGuards.forEach` in `src/v1/StoreGuard/StoreGuards.ts`) — iterates
the live array.  When a callback `splice`s an entry out of the list being
iterated, the remaining entries shift down and the JS iteration index
skips one, so an entry unregistered mid-pass is *not* invoked in the
current pass.  This contradicts the registries' own documented contract
("if you call it from inside any StoreGuard, it won't take effect until
we've finished calling the remaining guards"). -/

/-- **C7** — The claim states that every topic registry dispatches over a
snapshot copy, so an entry unregistered by a callback mid-pass is still
invoked in the current pass.  Evaluating `InterestsRegistry.forEach` at
the failing input (topic `"T"` holding `["a", "b"]`, with `"a"`'s callback
unregistering `"b"`) shows `"b"` — though registered when the pass began —
is never invoked: the pass invokes only `["a"]`.  (The `.slice()`-based
`StoreExtensions.forEach` does behave as claimed; see
`forEachSnapshot_trace` below.) -/
theorem c7_live_dispatch_skips_unregistered_entry :
    "b" ∈ topicList c7Registry "T"
    ∧ forEachLive c7Callback ["T"] (c7Registry, []) = ([("T", ["a"])], ["a"])
    ∧ "b" ∉ (forEachLive c7Callback ["T"] (c7Registry, [])).2 := by
  refine ⟨by decide, by decide, by decide⟩

theorem snapshotRun_trace (f : E → Registry E → Registry E) :
    ∀ (es : List E) (r : Registry E) (tr : List E),
      (snapshotRun f es (r, tr)).2 = tr ++ es := by
  intro es
  induction es with
  | nil => intro r tr; simp [snapshotRun]
  | cons e es ih => intro r tr; simp [snapshotRun, ih]

/-- The `.slice()`-based dispatch loop, in contrast, invokes exactly the
entries registered for the topic when its pass starts — whatever the
callback does to the registry mid-pass. -/
theorem forEachSnapshot_trace (f : E → Registry E → Registry E) (t : String)
    (r : Registry E) :
    (forEachSnapshot f [t] (r, [])).2 = topicList r t := by
  show (snapshotRun f (topicList r t) (r, [])).2 = topicList r t
  simp [snapshotRun_trace]

/-! ## C8 — unregister handles -/

/-- **C8 counterexample** — With entry `"f"` registered twice under `"T"`
(both list slots hold the same reference), the unsubscribe handle from
the *first* registration misbehaves: its first invocation removes one
occurrence but `"f"` is still dispatched afterwards, and its second
invocation removes the *other* registration's occurrence (the
`indexOf`-based closure just removes whatever occurrence it finds), so
it is not the claimed no-op. -/
theorem c8_duplicate_registration_counterexample :
    add ([("T", [])] : Registry String) "f" ["T"] = .ok [("T", ["f"])]
    ∧ add ([("T", ["f"])] : Registry String) "f" ["T"] = .ok c8Registry
    ∧ "f" ∈ matching (unregisterForTopic c8Registry "T" "f") ["T"]
    ∧ unregisterForTopic (unregisterForTopic c8Registry "T" "f") "T" "f"
        ≠ unregisterForTopic c8Registry "T" "f" := by
  refine ⟨rfl, rfl, by decide, by decide⟩

/-- **C8 (amended)** — Provided `fn` occurs at most once in topic `T`'s
list and not under the other dispatched topics, the handle behaves as
claimed: one invocation removes `fn`, so a subsequent dispatch whose
topic set is `ts` does not invoke `fn`; a further invocation raises
nothing (it is a total function) and leaves every topic's entry list
unchanged. -/
theorem c8_unregister_handle [DecidableEq E] (r : Registry E) (t : String)
    (e : E) (ts : List String) (t' : String)
    (hcount : (topicList r t).count e ≤ 1)
    (hother : ∀ u ∈ ts, u ≠ t → e ∉ topicList r u) :
    e ∉ matching (unregisterForTopic r t e) ts
    ∧ topicList (unregisterForTopic (unregisterForTopic r t e) t e) t'
        = topicList (unregisterForTopic r t e) t' := by
  have herased : e ∉ (topicList r t).erase e := by
    rw [← List.count_eq_zero, List.count_erase_self]
    omega
  constructor
  · rw [mem_matching]
    rintro ⟨u, hu, hmem⟩
    rw [topicList_unregister] at hmem
    by_cases h : u = t
    · rw [if_pos h] at hmem
      exact herased hmem
    · rw [if_neg h] at hmem
      exact hother u hu h hmem
  · rw [topicList_unregister]
    by_cases h : t' = t
    · rw [if_pos h, topicList_unregister, if_pos rfl,
        List.erase_of_not_mem herased, topicList_unregister, if_pos h]
    · rw [if_neg h]

/-- Witness for C8 (amended): `"f"` registered once under `"T"`, dispatch
topics `["T", "Object"]`. -/
theorem c8_unregister_handle_witness :
    "f" ∉ matching
        (unregisterForTopic ([("T", ["f"]), ("Object", [])] : Registry String)
          "T" "f") ["T", "Object"]
    ∧ topicList
        (unregisterForTopic
          (unregisterForTopic ([("T", ["f"]), ("Object", [])] : Registry String)
            "T" "f") "T" "f") "T"
      = topicList
          (unregisterForTopic ([("T", ["f"]), ("Object", [])] : Registry String)
            "T" "f") "T" :=
  c8_unregister_handle _ _ _ _ _ (by decide) (by decide)

/-! ## C10 — fan-out across several topic registrations -/

/-- After a successful `add` of entry `f` under the pairwise-distinct topics
`T` (each of which must already have a list, cf. C6), every topic's list
is the old list with `f` appended when the topic is in `T`, and unchanged
otherwise. -/
theorem add_ok_topicList :
    ∀ (T : List String) (r0 r1 : Registry E) (f : E), T.Nodup →
      (∀ t ∈ T, (topicFind r0 t).isSome) → add r0 f T = .ok r1 →
      ∀ t, topicList r1 t = topicList r0 t ++ (if t ∈ T then [f] else []) := by
  intro T
  induction T with
  | nil =>
    intro r0 r1 f _ _ hadd t
    simp [add] at hadd
    simp [hadd]
  | cons t0 T ih =>
    intro r0 r1 f hnd hpres hadd t
    have hp0 : (topicFind r0 t0).isSome := hpres t0 (by simp)
    rw [add, registerForTopic] at hadd
    cases hf : topicFind r0 t0 with
    | none => rw [hf] at hp0; simp at hp0
    | some l =>
      rw [hf] at hadd
      simp only [] at hadd
      have hpres' : ∀ u ∈ T, (topicFind (registerMap r0 t0 f) u).isSome := by
        intro u hu
        rw [isSome_topicFind_registerMap]
        exact hpres u (by simp [hu])
      have hrec := ih (registerMap r0 t0 f) r1 f (List.nodup_cons.mp hnd).2 hpres' hadd t
      rw [hrec]
      by_cases ht : t = t0
      · subst ht
        have htT : t ∉ T := (List.nodup_cons.mp hnd).1
        rw [topicList_registerMap_self r0 t f hp0]
        simp [htT]
      · rw [topicList_registerMap_ne r0 t0 t f ht]
        by_cases htT : t ∈ T <;> simp [ht, htT]

/-- Summing the indicator of membership in a duplicate-free sublist `T`
over a duplicate-free list `ts` counts exactly the elements of `T`. -/
theorem sum_indicator_mem (T ts : List String) (hT : T.Nodup) (hts : ts.Nodup)
    (hsub : ∀ t ∈ T, t ∈ ts) :
    (ts.map (fun t => if t ∈ T then 1 else 0)).sum = T.length := by
  have h1 : ∀ us : List String, (us.map (fun t => if t ∈ T then 1 else 0)).sum
      = (us.filter (fun t => decide (t ∈ T))).length := by
    intro us
    induction us with
    | nil => simp
    | cons u us ih =>
      by_cases hu : u ∈ T
      · simp [List.filter_cons, hu, ih]
        omega
      · simp [List.filter_cons, hu, ih]
  rw [h1]
  have hfnd : (ts.filter (fun t => decide (t ∈ T))).Nodup := hts.filter _
  have hset : (ts.filter (fun t => decide (t ∈ T))).toFinset = T.toFinset := by
    ext x
    simp only [List.mem_toFinset, List.mem_filter, decide_eq_true_eq]
    exact ⟨fun h => h.2, fun h => ⟨hsub x h, h⟩⟩
  calc (ts.filter (fun t => decide (t ∈ T))).length
      = (ts.filter (fun t => decide (t ∈ T))).toFinset.card :=
        (List.toFinset_card_of_nodup hfnd).symm
    _ = T.toFinset.card := by rw [hset]
    _ = T.length := List.toFinset_card_of_nodup hT

/-- **C10** — If one callback `f` is registered (by one `add` call, which is
the same as `k` single-topic calls) under `k` pairwise-distinct topics
`T`, each of which occurs in the dispatched topic sequence `ts` (the
mutation's duplicate-free topic set), and `f` was not previously
registered under any dispatched topic, then a single dispatch invokes `f`
exactly `k` times — the dispatch sequence `matching` walks the topics in
`ts`-order and each topic's entries in insertion order. -/
theorem c10_topic_fanout [DecidableEq E] (r0 r1 : Registry E) (f : E)
    (T ts : List String)
    (hTnd : T.Nodup) (htsnd : ts.Nodup) (hsub : ∀ t ∈ T, t ∈ ts)
    (hpresent : ∀ t ∈ T, (topicFind r0 t).isSome)
    (hfresh : ∀ t ∈ ts, f ∉ topicList r0 t)
    (hadd : add r0 f T = .ok r1) :
    (matching r1 ts).count f = T.length := by
  have hlist := add_ok_topicList T r0 r1 f hTnd hpresent hadd
  rw [count_matching]
  have hmap : ts.map (fun t => (topicList r1 t).count f)
      = ts.map (fun t => if t ∈ T then 1 else 0) := by
    apply List.map_congr_left
    intro t ht
    rw [hlist t, List.count_append,
      List.count_eq_zero.mpr (hfresh t ht)]
    by_cases htT : t ∈ T <;> simp [htT]
  rw [hmap]
  exact sum_indicator_mem T ts hTnd htsnd hsub

/-- Witness for C10: handler `"h"` added under topics `["A", "B"]` of the
three-topic dispatch sequence `["A", "B", "Object"]`; it is invoked
exactly twice. -/
theorem c10_topic_fanout_witness :
    (matching [("A", ["h"]), ("B", ["h"]), ("Object", ([] : List String))]
      ["A", "B", "Object"]).count "h" = 2 :=
  c10_topic_fanout
    [("A", []), ("B", []), ("Object", [])]
    [("A", ["h"]), ("B", ["h"]), ("Object", [])]
    "h" ["A", "B"] ["A", "B", "Object"]
    (by decide) (by decide) (by decide) (by decide) (by decide) rfl

/-! ## Pipeline lemmas -/

theorem collectObservers_fst_of_id (m : M) :
    ∀ (os : List (Observer V M A)) (x : V),
      (∀ o ∈ os, ∀ y, (o.beforeMutationApplied m y).1 = y) →
      (collectObservers m os x).1 = x := by
  intro os
  induction os with
  | nil => intro x _; rfl
  | cons o os ih =>
    intro x h
    show (collectObservers m os (o.beforeMutationApplied m x).1).1 = x
    rw [h o (by simp) x]
    exact ih x (fun o' ho' => h o' (by simp [ho']))

theorem mem_collectObservers_updaters (m : M) :
    ∀ (os : List (Observer V M A)) (x : V) (u : Updater V A),
      u ∈ (collectObservers m os x).2.1 →
      ∃ o ∈ os, ∃ y, u = (o.beforeMutationApplied m y).2 := by
  intro os
  induction os with
  | nil => intro x u hu; simp [collectObservers] at hu
  | cons o os ih =>
    intro x u hu
    rcases (by simpa [collectObservers] using hu : u = (o.beforeMutationApplied m x).2
        ∨ u ∈ (collectObservers m os (o.beforeMutationApplied m x).1).2.1) with h | h
    · exact ⟨o, by simp, x, h⟩
    · obtain ⟨o', ho', y, hy⟩ := ih _ u h
      exact ⟨o', by simp [ho'], y, hy⟩

theorem runUpdatersErr_none (e : StoreError A) :
    ∀ us : List (Updater V A),
      (∀ u ∈ us, ∃ y, u (.error e) = .ok y) →
      (runUpdatersErr us e).1 = none := by
  intro us
  induction us with
  | nil => intro _; rfl
  | cons u us ih =>
    intro h
    obtain ⟨y, hy⟩ := h u (by simp)
    simpa [runUpdatersErr, hy] using ih (fun u' hu' => h u' (by simp [hu']))

theorem runUpdatersOk_ok :
    ∀ (us : List (Updater V A)) (v : V),
      (∀ u ∈ us, ∀ w, ∃ y, u (.ok w) = .ok y) →
      ∃ w, (runUpdatersOk us v).1 = .ok w := by
  intro us
  induction us with
  | nil => intro v _; exact ⟨v, rfl⟩
  | cons u us ih =>
    intro v h
    obtain ⟨y, hy⟩ := h u (by simp) v
    obtain ⟨w, hw⟩ := ih y (fun u' hu' => h u' (by simp [hu']))
    exact ⟨w, by simp [runUpdatersOk, hy, hw]⟩

theorem runCallbacks_id (ev : Ev) (m : M) :
    ∀ (cs : List (Callback V M A)) (v : V),
      (∀ c ∈ cs, ∀ x, c m x = .ok x) →
      runCallbacks ev m cs v = (.ok v, List.replicate cs.length ev) := by
  intro cs
  induction cs with
  | nil => intro v _; rfl
  | cons c cs ih =>
    intro v h
    simp [runCallbacks, h c (by simp) v,
      ih v (fun c' hc' => h c' (by simp [hc'])), List.replicate_succ]

/-! ## The two exits of `apply`, as reusable lemmas -/

/-- If the guarded block throws `e`, benign observers (no snapshot writes,
no updater throws on failure outcomes) leave `apply` to re-raise exactly
`e` and to restore the pre-call state. -/
theorem store_apply_failed (st : Store V M A) (m : M)
    (onUM : UnhandledPolicy A) (e : StoreError A)
    (hobs : ∀ o ∈ matching st.observers (st.classNames m), ∀ x,
      (o.beforeMutationApplied m x).1 = x)
    (hups : ∀ o ∈ matching st.observers (st.classNames m), ∀ x f, ∃ y,
      (o.beforeMutationApplied m x).2 (.error f) = .ok y)
    (hfail : (tryStages m (matching st.guards (st.classNames m))
        (matching st.handlers (st.classNames m))
        (matching st.subscribers (st.classNames m)) onUM st.state).1
      = .error e) :
    (st.apply m onUM).result = .error e ∧ (st.apply m onUM).state = st.state := by
  have hsnap : (collectObservers m (matching st.observers (st.classNames m))
      st.state).1 = st.state :=
    collectObservers_fst_of_id m _ st.state hobs
  have hnone : (runUpdatersErr (collectObservers m
      (matching st.observers (st.classNames m)) st.state).2.1 e).1 = none := by
    apply runUpdatersErr_none
    intro u hu
    obtain ⟨o, ho, y, hy⟩ := mem_collectObservers_updaters m _ _ u hu
    obtain ⟨z, hz⟩ := hups o ho y e
    exact ⟨z, by rw [hy, hz]⟩
  rcases hts : tryStages m (matching st.guards (st.classNames m))
      (matching st.handlers (st.classNames m))
      (matching st.subscribers (st.classNames m)) onUM st.state with ⟨res, tr1⟩
  rw [hts] at hfail
  simp only at hfail
  subst hfail
  rcases hre : runUpdatersErr (collectObservers m
      (matching st.observers (st.classNames m)) st.state).2.1 e with ⟨thrown, tr2⟩
  rw [hre] at hnone
  simp only at hnone
  subst hnone
  simp [Store.apply, hts, hre, hsnap]

/-- If the guarded block returns `v` and the observers' outcome callbacks
return normally on a success outcome, `apply` returns normally with final
state exactly `v`. -/
theorem store_apply_succeeded (st : Store V M A) (m : M)
    (onUM : UnhandledPolicy A) (v : V)
    (hups : ∀ o ∈ matching st.observers (st.classNames m), ∀ x w, ∃ y,
      (o.beforeMutationApplied m x).2 (.ok w) = .ok y)
    (hok : (tryStages m (matching st.guards (st.classNames m))
        (matching st.handlers (st.classNames m))
        (matching st.subscribers (st.classNames m)) onUM st.state).1 = .ok v) :
    (st.apply m onUM).result = .ok () ∧ (st.apply m onUM).state = v := by
  have hupd : ∃ w, (runUpdatersOk (collectObservers m
      (matching st.observers (st.classNames m)) st.state).2.1 v).1 = .ok w := by
    apply runUpdatersOk_ok
    intro u hu w
    obtain ⟨o, ho, y, hy⟩ := mem_collectObservers_updaters m _ _ u hu
    obtain ⟨z, hz⟩ := hups o ho y w
    exact ⟨z, by rw [hy, hz]⟩
  obtain ⟨w, hw⟩ := hupd
  rcases hts : tryStages m (matching st.guards (st.classNames m))
      (matching st.handlers (st.classNames m))
      (matching st.subscribers (st.classNames m)) onUM st.state with ⟨res, tr1⟩
  rw [hts] at hok
  simp only at hok
  subst hok
  rcases hru : runUpdatersOk (collectObservers m
      (matching st.observers (st.classNames m)) st.state).2.1 v with ⟨ur, tr2⟩
  rw [hru] at hw
  simp only at hw
  subst hw
  simp [Store.apply, hts, hru]

/-! ## C1 — rollback and re-raise -/

/-- **C1** — If the guarded block of `apply` (guards → handlers →
subscribers) throws `e`, then `apply` re-raises exactly `e` — never
translated or wrapped — and the store's state after the call equals its
state before the call, even though handlers may already have written the
live state.  Hypotheses: the registered observers behave as observers are
documented to (they do not write through the snapshot, and their outcome
callbacks do not throw on a failure outcome); `hfail` says some guard,
handler or subscriber invocation (or the unhandled-mutation policy)
threw `e`. -/
theorem c1_rollback_reraises_unchanged (st : Store V M A) (m : M)
    (onUM : UnhandledPolicy A) (e : StoreError A)
    (hobs : ∀ o ∈ matching st.observers (st.classNames m), ∀ x,
      (o.beforeMutationApplied m x).1 = x)
    (hups : ∀ o ∈ matching st.observers (st.classNames m), ∀ x f, ∃ y,
      (o.beforeMutationApplied m x).2 (.error f) = .ok y)
    (hfail : (tryStages m (matching st.guards (st.classNames m))
        (matching st.handlers (st.classNames m))
        (matching st.subscribers (st.classNames m)) onUM st.state).1
      = .error e) :
    (st.apply m onUM).result = .error e ∧ (st.apply m onUM).state = st.state :=
  store_apply_failed st m onUM e hobs hups hfail

/-- Witness for C1: one handler writes `6` to the live state, a second
handler throws; `apply` re-raises that error and the state is back to
`5`. -/
theorem c1_rollback_reraises_unchanged_witness :
    (Store.apply
      ⟨fun _ => ["T"], [("T", [])],
        [("T", [fun _ v => Except.ok (v + 1), fun _ _ => Except.error (.user 7)])],
        [("T", [])],
        [("T", [⟨fun _ x => (x, fun _ => Except.ok 0)⟩])], 5⟩
      () THROW_THE_ERROR).result = .error (.user 7)
    ∧ (Store.apply
      ⟨fun _ => ["T"], [("T", [])],
        [("T", [fun _ v => Except.ok (v + 1), fun _ _ => Except.error (.user 7)])],
        [("T", [])],
        [("T", [⟨fun _ x => (x, fun _ => Except.ok 0)⟩])], 5⟩
      () THROW_THE_ERROR).state
        = (5 : Nat) :=
  c1_rollback_reraises_unchanged (A := Nat) _ () THROW_THE_ERROR (.user 7)
    (by
      intro o ho x
      rw [show matching [("T", [(⟨fun _ x => (x, fun _ => Except.ok 0)⟩ :
          Observer Nat Unit Nat)])] ["T"]
            = [⟨fun _ x => (x, fun _ => Except.ok 0)⟩] from rfl,
        List.mem_singleton] at ho
      subst ho
      rfl)
    (by
      intro o ho x f
      rw [show matching [("T", [(⟨fun _ x => (x, fun _ => Except.ok 0)⟩ :
          Observer Nat Unit Nat)])] ["T"]
            = [⟨fun _ x => (x, fun _ => Except.ok 0)⟩] from rfl,
        List.mem_singleton] at ho
      subst ho
      exact ⟨0, rfl⟩)
    rfl

/-! ## C2 — what the guards receive -/

/-- **C2 counterexample** — `Store.apply` (line 207) passes `this._state` —
the live state object — to `StoreGuards.forEach`, not the defensive copy
(the copy goes to the observers).  So a guarantee that writes `42`
through the state it is given changes `store.state`: the `apply` call
succeeds and the state afterwards is `42`, not the untouched `0` the
claim requires. -/
theorem c2_guard_mutation_persists_counterexample :
    c2Store.state = 0
    ∧ (c2Store.apply () THROW_THE_ERROR).result = .ok ()
    ∧ (c2Store.apply () THROW_THE_ERROR).state = 42 :=
  ⟨rfl, rfl, rfl⟩

/-- **C2 (amended)** — Every guarantee is invoked with the live
pre-mutation state object (whose value equals the snapshot's at that
point, since no handler has run yet); consequently a guarantee's writes
`w` thread into the state the handlers see and, when `apply` succeeds,
`store.state` retains them. -/
theorem c2_guards_receive_live_state (st : Store V M A) (m : M)
    (onUM : UnhandledPolicy A) (w : V → V)
    (hg : matching st.guards (st.classNames m) = [fun _ v => .ok (w v)])
    (hh : matching st.handlers (st.classNames m) = [fun _ v => .ok v])
    (hs : matching st.subscribers (st.classNames m) = [])
    (ho : matching st.observers (st.classNames m) = []) :
    (st.apply m onUM).result = .ok ()
    ∧ (st.apply m onUM).state = w st.state := by
  simp [Store.apply, hg, hh, hs, ho, collectObservers, tryStages,
    handlersForEach, runCallbacks, runUpdatersOk]

/-- Witness for C2 (amended): the guarantee writing `42` in `c2Store`. -/
theorem c2_guards_receive_live_state_witness :
    (c2Store.apply () THROW_THE_ERROR).result = .ok ()
    ∧ (c2Store.apply () THROW_THE_ERROR).state = 42 :=
  c2_guards_receive_live_state c2Store () THROW_THE_ERROR (fun _ => 42)
    rfl rfl rfl rfl

/-! ## C4 — pipeline stage order -/

/-- **C4** — With exactly one observer, one guarantee, one handler and one
subscriber matching the mutation (and all of them succeeding), one
`apply` call invokes them in the order: the observer's
`beforeMutationApplied` first, then the guarantee, then the handler, then
the subscriber, and finally the observer's collected outcome callback —
so callback-recorded call counters read `1, 2, 3, 4, 5` (each stage's
counter is its 1-based position in the invocation trace). -/
theorem c4_pipeline_stage_order (st : Store V M A) (m : M)
    (onUM : UnhandledPolicy A) (g h s : Callback V M A) (o : Observer V M A)
    (hg : matching st.guards (st.classNames m) = [g])
    (hh : matching st.handlers (st.classNames m) = [h])
    (hs : matching st.subscribers (st.classNames m) = [s])
    (ho : matching st.observers (st.classNames m) = [o])
    (hgok : ∀ x, ∃ y, g m x = .ok y)
    (hhok : ∀ x, ∃ y, h m x = .ok y)
    (hsok : ∀ x, ∃ y, s m x = .ok y)
    (huok : ∀ x w, ∃ y, (o.beforeMutationApplied m x).2 (.ok w) = .ok y) :
    (st.apply m onUM).trace
      = [.observerBefore, .guardCall, .handlerCall, .subscriberCall,
          .observerOutcome] := by
  obtain ⟨v1, hv1⟩ := hgok st.state
  obtain ⟨v2, hv2⟩ := hhok v1
  obtain ⟨v3, hv3⟩ := hsok v2
  obtain ⟨y, hy⟩ := huok st.state v3
  simp [Store.apply, hg, hh, hs, ho, collectObservers, tryStages,
    handlersForEach, runCallbacks, runUpdatersOk, hv1, hv2, hv3, hy]

/-- Witness for C4: identity callbacks at every stage. -/
theorem c4_pipeline_stage_order_witness :
    (Store.apply
      ⟨fun _ => ["T"],
        [("T", [fun _ v => Except.ok v])],
        [("T", [fun _ v => Except.ok v])],
        [("T", [fun _ v => Except.ok v])],
        [("T", [(⟨fun _ x => (x, fun oc => oc)⟩ : Observer Nat Unit Unit)])],
        0⟩
      () THROW_THE_ERROR).trace
      = [.observerBefore, .guardCall, .handlerCall, .subscriberCall,
          .observerOutcome] :=
  c4_pipeline_stage_order _ () THROW_THE_ERROR _ _ _ _ rfl rfl rfl rfl
    (fun x => ⟨x, rfl⟩) (fun x => ⟨x, rfl⟩) (fun x => ⟨x, rfl⟩)
    (fun _ w => ⟨w, rfl⟩)

/-! ## C5 — observer isolation -/

/-- **C5 counterexample** — The claim says an observer's write through the
snapshot never becomes visible in `store.state`, whether `apply` succeeds
or fails.  But on failure, `apply` rolls back with
`this._state = initialState` — the very snapshot object the observers
received — so the observer's write `99` *is* the store's state after the
failed call. -/
theorem c5_observer_write_visible_after_failure_counterexample :
    c5Store.state = 0
    ∧ (c5Store.apply () THROW_THE_ERROR).result = .error (.user ())
    ∧ (c5Store.apply () THROW_THE_ERROR).state = 99 :=
  ⟨rfl, rfl, rfl⟩

/-- **C5 (amended)** — After a *successful* `apply`, no observer write is
visible in `store.state`: whatever the observers write through the
snapshot or through the shared success-outcome copy, the final state is
exactly the value `v` produced by the guard/handler/subscriber stages
(`tryStages` does not take the observers as input).  The only hypotheses
are that the pipeline succeeded and that the observers' outcome callbacks
return normally on a success outcome (a throw there is C9's territory —
it changes the result, never the state). -/
theorem c5_success_observer_isolation (st : Store V M A) (m : M)
    (onUM : UnhandledPolicy A) (v : V)
    (hups : ∀ o ∈ matching st.observers (st.classNames m), ∀ x w, ∃ y,
      (o.beforeMutationApplied m x).2 (.ok w) = .ok y)
    (hok : (tryStages m (matching st.guards (st.classNames m))
        (matching st.handlers (st.classNames m))
        (matching st.subscribers (st.classNames m)) onUM st.state).1 = .ok v) :
    (st.apply m onUM).result = .ok () ∧ (st.apply m onUM).state = v :=
  store_apply_succeeded st m onUM v hups hok

/-- Witness for C5 (amended): the observer writes `99` through its
snapshot, the handler writes `7`; after the successful `apply` the state
is `7` — the observer's write is nowhere. -/
theorem c5_success_observer_isolation_witness :
    (Store.apply
      ⟨fun _ => ["T"], [("T", [])],
        [("T", [fun _ _ => Except.ok 7])], [("T", [])],
        [("T", [(⟨fun _ _ => (99, fun _ => Except.ok 0)⟩ :
          Observer Nat Unit Unit)])], 0⟩
      () THROW_THE_ERROR).result = .ok ()
    ∧ (Store.apply
      ⟨fun _ => ["T"], [("T", [])],
        [("T", [fun _ _ => Except.ok 7])], [("T", [])],
        [("T", [(⟨fun _ _ => (99, fun _ => Except.ok 0)⟩ :
          Observer Nat Unit Unit)])], 0⟩
      () THROW_THE_ERROR).state = 7 :=
  c5_success_observer_isolation _ () THROW_THE_ERROR 7
    (by
      intro o ho x w
      rw [show matching [("T", [(⟨fun _ _ => (99, fun _ => Except.ok 0)⟩ :
          Observer Nat Unit Unit)])] ["T"]
            = [⟨fun _ _ => (99, fun _ => Except.ok 0)⟩] from rfl,
        List.mem_singleton] at ho
      subst ho
      exact ⟨0, rfl⟩)
    rfl

/-! ## C9 — observer outcome-callback failures are not rolled back -/

/-- **C9** — If guards, handlers and subscribers all succeed (`tryStages`
returns `.ok v`) but a collected outcome callback throws `e2` when told of
the success, that error escapes `apply` — the store does not catch it —
and no rollback happens: `store.state` keeps every handler write (`v`). -/
theorem c9_observer_failure_no_rollback (st : Store V M A) (m : M)
    (onUM : UnhandledPolicy A) (v : V) (e2 : StoreError A)
    (hok : (tryStages m (matching st.guards (st.classNames m))
        (matching st.handlers (st.classNames m))
        (matching st.subscribers (st.classNames m)) onUM st.state).1 = .ok v)
    (hthrow : (runUpdatersOk (collectObservers m
        (matching st.observers (st.classNames m)) st.state).2.1 v).1
      = .error e2) :
    (st.apply m onUM).result = .error e2 ∧ (st.apply m onUM).state = v := by
  rcases hts : tryStages m (matching st.guards (st.classNames m))
      (matching st.handlers (st.classNames m))
      (matching st.subscribers (st.classNames m)) onUM st.state with ⟨res, tr1⟩
  rw [hts] at hok
  simp only at hok
  subst hok
  rcases hru : runUpdatersOk (collectObservers m
      (matching st.observers (st.classNames m)) st.state).2.1 v with ⟨ur, tr2⟩
  rw [hru] at hthrow
  simp only at hthrow
  subst hthrow
  simp [Store.apply, hts, hru]

/-- Witness for C9: the handler writes `1`, the observer's outcome
callback throws; the error escapes and the state stays `1`. -/
theorem c9_observer_failure_no_rollback_witness :
    (Store.apply
      ⟨fun _ => ["T"], [("T", [])],
        [("T", [fun _ v => Except.ok (v + 1)])], [("T", [])],
        [("T", [(⟨fun _ x => (x, fun _ => Except.error (.user ()))⟩ :
          Observer Nat Unit Unit)])], 0⟩
      () THROW_THE_ERROR).result = .error (.user ())
    ∧ (Store.apply
      ⟨fun _ => ["T"], [("T", [])],
        [("T", [fun _ v => Except.ok (v + 1)])], [("T", [])],
        [("T", [(⟨fun _ x => (x, fun _ => Except.error (.user ()))⟩ :
          Observer Nat Unit Unit)])], 0⟩
      () THROW_THE_ERROR).state = 1 :=
  c9_observer_failure_no_rollback _ () THROW_THE_ERROR 1 (.user ()) rfl rfl

/-! ## C3 — unhandled mutations -/

/-- **C3** — When no handler matches any topic of the mutation
(`matching st.handlers … = []` so zero handlers fire), `apply` hands the
distinguishable `UnhandledMutationError` to the unhandled-mutation
policy.  Under the default policy (`THROW_THE_ERROR`) `apply` raises that
error and leaves the state unchanged; a caller-supplied policy that simply
returns downgrades it to a no-op and `apply` completes without error,
still leaving the state unchanged.  Guards and subscribers are assumed not
to throw or write (the claim is about the handler stage), and observers
behave as documented. -/
theorem c3_unhandled_mutation_policy (st : Store V M A) (m : M)
    (onUM : UnhandledPolicy A)
    (hh : matching st.handlers (st.classNames m) = [])
    (hgid : ∀ g ∈ matching st.guards (st.classNames m), ∀ x, g m x = .ok x)
    (hsid : ∀ s ∈ matching st.subscribers (st.classNames m), ∀ x, s m x = .ok x)
    (hobs : ∀ o ∈ matching st.observers (st.classNames m), ∀ x,
      (o.beforeMutationApplied m x).1 = x)
    (hups : ∀ o ∈ matching st.observers (st.classNames m), ∀ x oc, ∃ y,
      (o.beforeMutationApplied m x).2 oc = .ok y) :
    ((st.apply m THROW_THE_ERROR).result = .error .unhandledMutation
      ∧ (st.apply m THROW_THE_ERROR).state = st.state)
    ∧ (onUM .unhandledMutation = .ok () →
        (st.apply m onUM).result = .ok ()
        ∧ (st.apply m onUM).state = st.state) := by
  have hguards := runCallbacks_id .guardCall m
    (matching st.guards (st.classNames m)) st.state hgid
  have hsubs := runCallbacks_id .subscriberCall m
    (matching st.subscribers (st.classNames m)) st.state hsid
  constructor
  · apply store_apply_failed st m THROW_THE_ERROR .unhandledMutation hobs
      (fun o ho x f => hups o ho x (.error f))
    simp [tryStages, hguards, hh, handlersForEach, runCallbacks,
      THROW_THE_ERROR]
  · intro hpol
    apply store_apply_succeeded st m onUM st.state
      (fun o ho x w => hups o ho x (.ok w))
    simp [tryStages, hguards, hh, handlersForEach, runCallbacks, hpol, hsubs]

/-- Witness for C3 at `c3Store`, with the returning policy
`fun _ => .ok ()`. -/
theorem c3_unhandled_mutation_policy_witness :
    (c3Store.apply () THROW_THE_ERROR).result = .error .unhandledMutation
    ∧ (c3Store.apply () THROW_THE_ERROR).state = 5
    ∧ (c3Store.apply () (fun _ => Except.ok ())).result = .ok ()
    ∧ (c3Store.apply () (fun _ => Except.ok ())).state = 5 := by
  have h := c3_unhandled_mutation_policy c3Store () (fun _ => Except.ok ())
    rfl
    (by
      intro g hg x
      rw [show matching c3Store.guards (c3Store.classNames ())
            = [fun _ v => Except.ok v] from rfl,
        List.mem_singleton] at hg
      subst hg
      rfl)
    (by
      intro s hs x
      rw [show matching c3Store.subscribers (c3Store.classNames ())
            = [fun _ v => Except.ok v] from rfl,
        List.mem_singleton] at hs
      subst hs
      rfl)
    (by
      intro o ho x
      rw [show matching c3Store.observers (c3Store.classNames ())
            = [⟨fun _ x => (x, fun _ => Except.ok 0)⟩] from rfl,
        List.mem_singleton] at ho
      subst ho
      rfl)
    (by
      intro o ho x oc
      rw [show matching c3Store.observers (c3Store.classNames ())
            = [⟨fun _ x => (x, fun _ => Except.ok 0)⟩] from rfl,
        List.mem_singleton] at ho
      subst ho
      exact ⟨0, rfl⟩)
  exact ⟨h.1.1, h.1.2, (h.2 rfl).1, (h.2 rfl).2⟩

end WellStated
